import Mathlib

/-!
Shallow embedding of the quoting core of the `ai-web3` repository.

The repository contains several implementations of the strategy-agent quote
pipeline.  The claims under verification cite three of them:

* `src/strategy-agent/` (`datatypes.py`, `enforcer.py`), embedded in the
  `SA` namespace together with `src/strategyAgentOld/gen_intent.py`, the
  module providing the `synthesize_quote_intent` that
  `strategy-agent/enforcer.py` imports;
* `src/strategy-agent/dump.py`, a self-contained variant of the same
  pipeline, embedded in the `Dump` namespace;
* `src/strategyAgentNew/` (`datatypes.py`, `enforcer.py`), embedded in the
  `New` namespace.

Modelling conventions, applied uniformly:

* Python dicts become association lists `List (String × α)` with the
  insertion-ordered update semantics of Python dicts (`lookupD`, `setD`,
  `removeD` below).
* Numeric strings (`uint256` base units carried as decimal strings) and
  Python floats become `ℚ` or `Int`; functions receive the parsed value.
  Python `int(x)` applied to a float is truncation toward zero (`pyInt`).
* Python `str.lower()` becomes `pyLower` (ASCII lowering, which agrees with
  Python on the token identifiers used here).
* `time.time()` / dates are injected as explicit `now : Int` /
  `today : String` parameters.
* Raised exceptions become an explicit `PyErr` error value; exceptions that
  the source catches locally are handled locally, and global state mutated
  before a raise is preserved (Python state survives exception propagation),
  so stateful functions return their final state next to the `Except` value.
-/

namespace AiWeb3

/-- Python `dict` lookup on an association list: first binding wins. -/
def lookupD {α : Type} : List (String × α) → String → Option α
  | [], _ => none
  | (k', v) :: t, k => if k' = k then some v else lookupD t k

/-- Python `dict` update `d[k] = v`: replace the existing binding in place,
otherwise append (insertion order, as in Python dicts). -/
def setD {α : Type} : List (String × α) → String → α → List (String × α)
  | [], k, v => [(k, v)]
  | (k', v') :: t, k, v => if k' = k then (k, v) :: t else (k', v') :: setD t k v

/-- Python `del d[k]`: drop the binding for `k`. -/
def removeD {α : Type} : List (String × α) → String → List (String × α)
  | [], _ => []
  | (k', v') :: t, k => if k' = k then t else (k', v') :: removeD t k

/-- Python `str.lower()` restricted to ASCII, which is how the source uses
it (token identifiers / addresses). -/
def pyLower (s : String) : String := ⟨s.data.map Char.toLower⟩

/-- Python `int(x)` on a float: truncation toward zero. -/
def pyInt (q : ℚ) : Int := if 0 ≤ q then ⌊q⌋ else ⌈q⌉

/-- Exceptions raised by the embedded code. -/
inductive PyErr : Type
  /-- A call or operation on incompatible types or with a wrong arity. -/
  | typeError : PyErr
  /-- Attribute lookup on a name the class does not define. -/
  | attributeError : PyErr
  /-- Division by zero in `/`. -/
  | zeroDivisionError : PyErr
  deriving DecidableEq, Repr

@[simp] theorem lookupD_setD_self {α : Type} (l : List (String × α)) (k : String) (v : α) :
    lookupD (setD l k v) k = some v := by
  induction l with
  | nil => simp [setD, lookupD]
  | cons p t ih =>
    obtain ⟨k', v'⟩ := p
    by_cases h : k' = k <;> simp [setD, lookupD, h, ih]

end AiWeb3

namespace AiWeb3.SA

/-! ## `src/strategy-agent` (with `strategyAgentOld/gen_intent.py`)

The enforcer does `from makeragent.SmartChatBot import MakerConfig`, but it
accesses fields (`maker`, `strategyHash`, `allowed_pairs` as a list of
`{tokenIn, tokenOut}` dicts, `max_trade_size`, `daily_caps` as a list of
`{tokenIn, tokenOut, cap}` dicts, `paused`) that follow the `MakerConfig`
dataclass commented out in `strategy-agent/datatypes.py` (lines 77–87), not
the maker-agent one.  The record below is therefore reconstructed from the
enforcer's own accesses and that commented-out dataclass. -/

/-- Embeds `QuoteRequest` from `strategy-agent/datatypes.py`.  `amount` is a
decimal string in the source; the embedding carries the parsed value. -/
structure QuoteRequest : Type where
  chainId : Int
  side : String
  tokenIn : String
  tokenOut : String
  amount : ℚ
  taker : String
  recipient : Option String
  idempotencyKey : Option String
  deriving DecidableEq, Repr

/-- One entry of `allowed_pairs`: a `{'tokenIn': …, 'tokenOut': …}` dict.
The enforcer reads the two keys with `.get(…, '')`; the record carries the
two values. -/
structure AllowedPairD : Type where
  tokenIn : String
  tokenOut : String
  deriving DecidableEq, Repr

/-- One entry of `daily_caps`: a `{'tokenIn': …, 'tokenOut': …, 'cap': …}`
dict; `cap` is a decimal string, carried parsed. -/
structure DailyCapD : Type where
  tokenIn : String
  tokenOut : String
  cap : ℚ
  deriving DecidableEq, Repr

/-- Modelled from the spec: the `MakerConfig` consumed by
`strategy-agent/enforcer.py`.  Its dataclass is commented out in
`strategy-agent/datatypes.py`, so the fields follow the enforcer's accesses
and the spec's `MakerPolicy` record.  `max_trade_size` is optional
(`float(…) if maker_config.max_trade_size else 0.0`), `daily_caps` is
optional (`if maker_config.daily_caps:`). -/
structure MakerConfig : Type where
  maker : String
  strategyHash : String
  paused : Bool
  allowed_pairs : List AllowedPairD
  max_trade_size : Option ℚ
  daily_caps : Option (List DailyCapD)
  deriving DecidableEq, Repr

/-- Embeds `QuoteIntent` from `strategy-agent/datatypes.py` (amounts are floats
there; `minOutNet` is a string the source builds with `str(int(...))`,
carried as the integer). -/
structure QuoteIntent : Type where
  maker : String
  tokenIn : String
  tokenOut : String
  amountIn : ℚ
  amountOut : ℚ
  strategyHash : String
  nonce : Int
  expiry : Int
  minOutNet : Int
  reason : Option String
  idempotencyKey : Option String
  deriving DecidableEq, Repr

/-- Embeds `PricingSnapshot` from `strategy-agent/datatypes.py`; the depth-curve
field is never read by this pipeline before it fails, so only the fields the
embedded code reads are carried. -/
structure PricingSnapshot : Type where
  midPrice : ℚ
  confidenceScore : ℚ
  stale : Bool
  asOf : Int
  deriving DecidableEq, Repr

/-- Embeds `ChainSnapshot` from `strategy-agent/datatypes.py`; `allowances` is a
list of `{token, allowance}` dicts, carried as pairs with parsed amounts. -/
structure ChainSnapshot : Type where
  chainId : Int
  maker : String
  strategyHash : String
  strategyStatus : String
  allowances : List (String × ℚ)
  deriving DecidableEq, Repr

/-- One `daily_volumes` record: `{"date": …, "volume": …}`. -/
structure DVEntry : Type where
  date : String
  volume : ℚ
  deriving DecidableEq, Repr

/-- Embeds `StrategyAgentState` from `strategy-agent/datatypes.py`: per-maker
nonces, idempotency cache, budget snapshots, daily volumes. -/
structure State : Type where
  maker_nonces : List (String × Int)
  quote_cache : List (String × QuoteIntent)
  budget_snapshots : List (String × List (String × List (String × ℚ)))
  daily_volumes : List (String × List (String × DVEntry))
  deriving DecidableEq, Repr

/-- The freshly constructed global `state` (all tables empty). -/
def initialState : State := ⟨[], [], [], []⟩

/-- Embeds `StrategyAgentState.get_next_nonce` (`datatypes.py` lines 195–200, and
identically `dump.py` lines 244–249): initialize the counter to 0 when the
maker is absent, increment it, and return the incremented value. -/
def get_next_nonce (maker : String) (st : State) : Int × State :=
  let cur := (lookupD st.maker_nonces maker).getD 0
  let n := cur + 1
  (n, { st with maker_nonces := setD st.maker_nonces maker n })

/-- Embeds `StrategyAgentState.get_cached_quote` (`datatypes.py` lines 202–217):
empty keys miss; a hit is returned only when `expiry > now`; an expired
entry is deleted and the call returns `None`. -/
def get_cached_quote (key : String) (now : Int) (st : State) :
    Option QuoteIntent × State :=
  if key = "" then (none, st)
  else
    match lookupD st.quote_cache key with
    | none => (none, st)
    | some c =>
      if c.expiry > now then (some c, st)
      else (none, { st with quote_cache := removeD st.quote_cache key })

/-- Embeds `StrategyAgentState.cache_quote`: store under the key when it is truthy. -/
def cache_quote (key : Option String) (intent : QuoteIntent) (st : State) : State :=
  match key with
  | some k => if k = "" then st else { st with quote_cache := setD st.quote_cache k intent }
  | none => st

/-- Insert the default `{"date": today, "volume": 0}` record for the pair
(and the maker's table) when absent, and reset it when its date is not
`today` — the shared prologue of `get_daily_volume` / `add_daily_volume`. -/
def dvEnsure (maker pairKey today : String) (st : State) : State :=
  let table := (lookupD st.daily_volumes maker).getD []
  let entry := (lookupD table pairKey).getD ⟨today, 0⟩
  let entry := if entry.date ≠ today then (⟨today, 0⟩ : DVEntry) else entry
  { st with daily_volumes := setD st.daily_volumes maker (setD table pairKey entry) }

/-- Embeds `StrategyAgentState.add_daily_volume` (`datatypes.py` lines 248–289).
Returns `(raised, st')`: `raised = true` models the
`DailyCapExceededError` raise, in which case the volume is not committed
(but the default-record insertions made before the check persist). -/
def add_daily_volume (maker token_in token_out : String) (amount : ℚ)
    (cap : Option ℚ) (today : String) (st : State) : Bool × State :=
  let pairKey := pyLower token_in ++ "-" ++ pyLower token_out
  let st1 := dvEnsure maker pairKey today st
  let table := (lookupD st1.daily_volumes maker).getD []
  let current := ((lookupD table pairKey).getD ⟨today, 0⟩).volume
  let newVolume := current + amount
  let committed : State :=
    { st1 with daily_volumes := setD st1.daily_volumes maker (setD table pairKey ⟨today, newVolume⟩) }
  match cap with
  | some c => if newVolume > c then (true, st1) else (false, committed)
  | none => (false, committed)

/-! The `RejectionReason` class of `strategy-agent/datatypes.py` (lines
147–155) is a set of string constants; the embedding mirrors it as string
definitions.  Note that `enforcer.py` line 76 additionally references
`RejectionReason.REPEATED_IDEMPOTENCY_KEY`, which the class does not
define — evaluating that attribute raises `AttributeError`. -/

def RejectionReason.MAKER_PAUSED : String := "MAKER_PAUSED"

def RejectionReason.INSUFFICIENT_BUDGET : String := "INSUFFICIENT_BUDGET"

def RejectionReason.STALE_PRICING : String := "STALE_PRICING"

def RejectionReason.PAIR_NOT_ALLOWED : String := "PAIR_NOT_ALLOWED"

def RejectionReason.STRATEGY_INACTIVE : String := "STRATEGY_INACTIVE"

def RejectionReason.INSUFFICIENT_ALLOWANCE : String := "INSUFFICIENT_ALLOWANCE"

def RejectionReason.MAX_TRADE_SIZE_EXCEEDED : String := "MAX_TRADE_SIZE_EXCEEDED"

def RejectionReason.DAILY_CAP_EXCEEDED : String := "DAILY_CAP_EXCEEDED"

/-- The daily-caps `for` loop of `check_policy_enforcement`
(`enforcer.py` lines 49–74): on the first cap whose `tokenIn`/`tokenOut`
match the request exactly (no lowering here, unlike the volume keys), a
non-positive cap is treated as disabled (`break`); otherwise
`add_daily_volume` runs with the cap — committing the volume when under the
cap, appending `DAILY_CAP_EXCEEDED` when the raise is caught — and the loop
breaks.  Non-matching caps are skipped. -/
def dailyCapLoop (req : QuoteRequest) (maker : String) (amount : ℚ) (today : String) :
    List DailyCapD → State → List String × State
  | [], st => ([], st)
  | c :: rest, st =>
    if c.tokenIn = req.tokenIn ∧ c.tokenOut = req.tokenOut then
      if c.cap ≤ 0 then ([], st)
      else
        match add_daily_volume maker req.tokenIn req.tokenOut amount (some c.cap) today st with
        | (true, st') => ([RejectionReason.DAILY_CAP_EXCEEDED], st')
        | (false, st') => ([], st')
    else dailyCapLoop req maker amount today rest st

/-- Embeds `check_policy_enforcement` from `strategy-agent/enforcer.py` (lines
19–77).  The checks do not short-circuit: every violated check appends its
reason.  The final `if quote_request.idempotencyKey in state.quote_cache`
branch evaluates the undefined attribute
`RejectionReason.REPEATED_IDEMPOTENCY_KEY` and therefore raises
`AttributeError`. -/
def check_policy_enforcement (req : QuoteRequest) (cfg : MakerConfig) (today : String)
    (st : State) : Except PyErr (List String) × State :=
  let r1 := if cfg.paused then [RejectionReason.MAKER_PAUSED] else []
  let pair_allowed := cfg.allowed_pairs.any fun p =>
    pyLower p.tokenIn == pyLower req.tokenIn && pyLower p.tokenOut == pyLower req.tokenOut
  let r2 := if pair_allowed = false ∧ cfg.allowed_pairs.length > 0 then
    [RejectionReason.PAIR_NOT_ALLOWED] else []
  let max_trade_float := (cfg.max_trade_size).getD 0
  let r3 := if max_trade_float > 0 ∧ req.amount > max_trade_float then
    [RejectionReason.MAX_TRADE_SIZE_EXCEEDED] else []
  let capsOut :=
    match cfg.daily_caps with
    | some caps => dailyCapLoop req cfg.maker req.amount today caps st
    | none => ([], st)
  let r4 := capsOut.1
  let st1 := capsOut.2
  let keyCached :=
    match req.idempotencyKey with
    | some k => (lookupD st1.quote_cache k).isSome
    | none => false
  if keyCached then (.error .attributeError, st1)
  else (.ok (r1 ++ r2 ++ r3 ++ r4), st1)

/-- Embeds `synthesize_quote_intent` from `strategyAgentOld/gen_intent.py` — the
module `strategy-agent/enforcer.py` imports.  With a truthy idempotency key
whose cached intent is unexpired, the cached intent is returned (lines
16–19).  On every other path the function raises before constructing an
intent: both the `"sell"` and `"buy"` branches evaluate
`quote_request.tokenIn * pricing_snapshot.midPrice`, a `str * float`
multiplication (`TypeError`, lines 45 and 52), and any other `side` leaves
`amountOut` unbound (`NameError` at line 68); the embedding reports these
as `typeError`.  The strategy-hash selection (lines 21–27) completes first
but its result is discarded by the raise. -/
def synthesize_quote_intent (req : QuoteRequest) (_cfg : MakerConfig)
    (_ps : PricingSnapshot) (_cs : ChainSnapshot) (now : Int) (st : State) :
    Except PyErr QuoteIntent × State :=
  let key : Option String :=
    match req.idempotencyKey with
    | some k => if k = "" then none else some k
    | none => none
  match key with
  | some k =>
    match get_cached_quote k now st with
    | (some c, st') => (.ok c, st')
    | (none, st') => (.error .typeError, st')
  | none => (.error .typeError, st)

/-- Embeds `process_quote_request` from `strategy-agent/enforcer.py` (lines
134–176): synthesize (line 144, result discarded), staleness check, policy
gate, synthesize again (line 157), then the feasibility call.  That call —
`check_on_chain_feasibility(quote_request, chain_snapshot, intent.amountOut)`
(line 162) — passes three positional arguments to a function whose local
definition (line 98) takes four, so Python raises `TypeError` before the
feasibility body runs; the commit block (lines 167–174) is unreachable. -/
def process_quote_request (req : QuoteRequest) (cfg : MakerConfig) (ps : PricingSnapshot)
    (cs : ChainSnapshot) (now : Int) (today : String) (st : State) :
    Except PyErr (QuoteIntent × List String) × State :=
  match synthesize_quote_intent req cfg ps cs now st with
  | (.error e, st1) => (.error e, st1)
  | (.ok _intent1, st1) =>
    let _r0 := if ps.stale then [RejectionReason.STALE_PRICING] else []
    match check_policy_enforcement req cfg today st1 with
    | (.error e, st2) => (.error e, st2)
    | (.ok _rs, st2) =>
      match synthesize_quote_intent req cfg ps cs now st2 with
      | (.error e, st3) => (.error e, st3)
      | (.ok _intent2, st3) => (.error .typeError, st3)

end AiWeb3.SA

namespace AiWeb3.Dump

/-! ## `src/strategy-agent/dump.py`

A self-contained variant of the pipeline with its own `MakerConfig`,
state store and core functions.  Amounts are `uint256` decimal strings in
the source and are carried as the parsed integers. -/

/-- Embeds `QuoteRequest` as consumed by `dump.py` (`amount` parsed with
`int(...)`). -/
structure QuoteRequest : Type where
  chainId : Int
  side : String
  tokenIn : String
  tokenOut : String
  amount : Int
  taker : String
  recipient : Option String
  idempotencyKey : Option String
  deriving DecidableEq, Repr

/-- One `allowedPairs` entry (`{'tokenIn': …, 'tokenOut': …}`). -/
structure AllowedPairD : Type where
  tokenIn : String
  tokenOut : String
  deriving DecidableEq, Repr

/-- One `dailyCaps` entry (`{'tokenIn': …, 'tokenOut': …, 'cap': …}`),
`cap` carried parsed. -/
structure DailyCapD : Type where
  tokenIn : String
  tokenOut : String
  cap : Int
  deriving DecidableEq, Repr

/-- One `spreadPresets` entry; the source reads `spreadBps` with default 50
from the first preset when it is a dict — presets are modelled as dicts
carrying that value. -/
structure SpreadPresetD : Type where
  spreadBps : Int
  deriving DecidableEq, Repr

/-- The `ttlRanges` dict (`{'minSec': …, 'maxSec': …}`, defaults 0).  The
constructor default makes the dict non-empty, so `if maker_config.ttlRanges:`
is always truthy. -/
structure TTLRangeD : Type where
  minSec : Int
  maxSec : Int
  deriving DecidableEq, Repr

/-- Embeds `MakerConfig` from `dump.py` (lines 81–105). -/
structure MakerConfig : Type where
  maker : String
  allowedPairs : List AllowedPairD
  maxTradeSize : Int
  dailyCaps : Option (List DailyCapD)
  ttlRanges : TTLRangeD
  spreadPresets : List SpreadPresetD
  paused : Bool
  strategyHashes : List String
  deriving DecidableEq, Repr

/-- Embeds `QuoteIntent` from `dump.py` (lines 155–183); `amountIn`, `amountOut`
and `minOutNet` are built with `str(int)` in the source and carried as the
integers. -/
structure QuoteIntent : Type where
  maker : String
  tokenIn : String
  tokenOut : String
  amountIn : Int
  amountOut : Int
  strategyHash : String
  nonce : Int
  expiry : Int
  minOutNet : Int
  reason : Option String
  idempotencyKey : Option String
  deriving DecidableEq, Repr

/-- Embeds `PricingSnapshot` as read by `dump.py`: `midPrice` is parsed with
`float(...)` inside a `try` whose `ValueError` fallback (mid 1.0) applies
only to unparseable strings; the embedding carries the parsed value. -/
structure PricingSnapshot : Type where
  midPrice : ℚ
  confidenceScore : ℚ
  stale : Bool
  deriving DecidableEq, Repr

/-- Embeds `ChainSnapshot` from `dump.py` (lines 132–152): `rawBalances` is a dict
whose `'balance'` entry (default `'0'`) is the only key read, carried
parsed; `allowances` entries carry `(token, allowance)` with the allowance
parsed (`spender` is never read). -/
structure ChainSnapshot : Type where
  chainId : Int
  maker : String
  strategyHash : String
  balance : Int
  allowances : List (String × Int)
  strategyStatus : String
  deriving DecidableEq, Repr

/-- One `daily_volumes` record (`{"date": …, "volume": …}`; the volume is a
decimal string in the source, carried parsed). -/
structure DVEntry : Type where
  date : String
  volume : Int
  deriving DecidableEq, Repr

/-- Embeds `StrategyAgentState` from `dump.py` (lines 227–312). -/
structure State : Type where
  maker_nonces : List (String × Int)
  quote_cache : List (String × QuoteIntent)
  budget_snapshots : List (String × List (String × List (String × Int)))
  daily_volumes : List (String × List (String × DVEntry))
  deriving DecidableEq, Repr

/-- The freshly constructed global `state`. -/
def initialState : State := ⟨[], [], [], []⟩

/-- Embeds `get_next_nonce` (`dump.py` lines 244–249): identical to the
`datatypes.py` version — initialize to 0 when absent, increment, return the
incremented value. -/
def get_next_nonce (maker : String) (st : State) : Int × State :=
  let cur := (lookupD st.maker_nonces maker).getD 0
  let n := cur + 1
  (n, { st with maker_nonces := setD st.maker_nonces maker n })

/-- Embeds `get_cached_quote` (`dump.py` lines 251–261): same semantics as the
`datatypes.py` version. -/
def get_cached_quote (key : String) (now : Int) (st : State) :
    Option QuoteIntent × State :=
  if key = "" then (none, st)
  else
    match lookupD st.quote_cache key with
    | none => (none, st)
    | some c =>
      if c.expiry > now then (some c, st)
      else (none, { st with quote_cache := removeD st.quote_cache key })

/-- Embeds `cache_quote` (`dump.py` lines 263–266). -/
def cache_quote (key : Option String) (intent : QuoteIntent) (st : State) : State :=
  match key with
  | some k => if k = "" then st else { st with quote_cache := setD st.quote_cache k intent }
  | none => st

/-- Embeds `get_daily_volume` (`dump.py` lines 276–290): insert the default
`{"date": today, "volume": "0"}` record when absent, reset it on a date
change, and return the (possibly fresh) volume. -/
def get_daily_volume (maker token_in token_out today : String) (st : State) :
    Int × State :=
  let pairKey := pyLower token_in ++ "-" ++ pyLower token_out
  let table := (lookupD st.daily_volumes maker).getD []
  let entry := (lookupD table pairKey).getD ⟨today, 0⟩
  let entry := if entry.date ≠ today then (⟨today, 0⟩ : DVEntry) else entry
  (entry.volume,
   { st with daily_volumes := setD st.daily_volumes maker (setD table pairKey entry) })

/-- The dump `RejectionReason` class (lines 212–220) defines the same
eight string constants as `datatypes.py`; the `SA.RejectionReason`
definitions are reused below. -/
def rejectionReasonValues : List String :=
  [SA.RejectionReason.MAKER_PAUSED, SA.RejectionReason.INSUFFICIENT_BUDGET,
   SA.RejectionReason.STALE_PRICING, SA.RejectionReason.PAIR_NOT_ALLOWED,
   SA.RejectionReason.STRATEGY_INACTIVE, SA.RejectionReason.INSUFFICIENT_ALLOWANCE,
   SA.RejectionReason.MAX_TRADE_SIZE_EXCEEDED, SA.RejectionReason.DAILY_CAP_EXCEEDED]

/-- The daily-caps loop of dump's `check_policy_enforcement` (lines
477–489): every cap whose tokens match case-insensitively is checked
against the current volume; the first violated cap returns
`DAILY_CAP_EXCEEDED`, and — unlike the `enforcer.py` variant — nothing is
committed and there is no `break` after a passing cap. -/
def dailyCapLoop (req : QuoteRequest) (maker : String) (amount : Int) (today : String) :
    List DailyCapD → State → Option String × State
  | [], st => (none, st)
  | c :: rest, st =>
    if pyLower c.tokenIn = pyLower req.tokenIn ∧ pyLower c.tokenOut = pyLower req.tokenOut then
      match get_daily_volume maker req.tokenIn req.tokenOut today st with
      | (current, st') =>
        if current + amount > c.cap then (some SA.RejectionReason.DAILY_CAP_EXCEEDED, st')
        else dailyCapLoop req maker amount today rest st'
    else dailyCapLoop req maker amount today rest st

/-- Embeds `check_policy_enforcement` from `dump.py` (lines 449–491): a
short-circuiting chain returning the first violated check's reason. -/
def check_policy_enforcement (req : QuoteRequest) (cfg : MakerConfig) (today : String)
    (st : State) : Option String × State :=
  if cfg.paused then (some SA.RejectionReason.MAKER_PAUSED, st)
  else
    let pair_allowed := cfg.allowedPairs.any fun p =>
      pyLower p.tokenIn == pyLower req.tokenIn && pyLower p.tokenOut == pyLower req.tokenOut
    if pair_allowed = false ∧ cfg.allowedPairs.length > 0 then
      (some SA.RejectionReason.PAIR_NOT_ALLOWED, st)
    else if cfg.maxTradeSize > 0 ∧ req.amount > cfg.maxTradeSize then
      (some SA.RejectionReason.MAX_TRADE_SIZE_EXCEEDED, st)
    else
      match cfg.dailyCaps with
      | some caps => dailyCapLoop req cfg.maker req.amount today caps st
      | none => (none, st)

/-- Embeds `check_on_chain_feasibility` from `dump.py` (lines 494–523): strategy
must be `"ACTIVE"`, the raw balance must cover `amount_out`, and the first
allowance entry matching `tokenOut` (case-insensitively) must exist and
cover `amount_out`. -/
def check_on_chain_feasibility (req : QuoteRequest) (cs : ChainSnapshot)
    (amount_out : Int) : Option String :=
  if cs.strategyStatus ≠ "ACTIVE" then some SA.RejectionReason.STRATEGY_INACTIVE
  else if cs.balance < amount_out then some SA.RejectionReason.INSUFFICIENT_BUDGET
  else
    match cs.allowances.find? (fun a => pyLower a.1 == pyLower req.tokenOut) with
    | none => some SA.RejectionReason.INSUFFICIENT_ALLOWANCE
    | some a =>
      if a.2 < amount_out then some SA.RejectionReason.INSUFFICIENT_ALLOWANCE else none

/-- Embeds `synthesize_quote_intent` from `dump.py` (lines 526–613). -/
def synthesize_quote_intent (req : QuoteRequest) (cfg : MakerConfig)
    (ps : PricingSnapshot) (cs : ChainSnapshot) (now : Int) (st : State) :
    QuoteIntent × State :=
  let key : Option String :=
    match req.idempotencyKey with
    | some k => if k = "" then none else some k
    | none => none
  let cacheHit :=
    match key with
    | some k => get_cached_quote k now st
    | none => (none, st)
  match cacheHit with
  | (some c, st1) => (c, st1)
  | (none, st1) =>
    let sh0 := cs.strategyHash
    let strategy_hash :=
      if sh0 = "" ∨ sh0 = "0x0" then
        match cfg.strategyHashes with
        | h :: _ => h
        | [] => "0x0"
      else sh0
    let spread_bps : Int :=
      match cfg.spreadPresets with
      | p :: _ => p.spreadBps
      | [] => 50
    let amounts : Int × Int :=
      if req.side = "sell" then
        (req.amount,
         pyInt ((req.amount : ℚ) * ps.midPrice * ((10000 - spread_bps : Int) : ℚ) / 10000))
      else
        let amount_out := pyInt ((req.amount : ℚ) / ps.midPrice)
        (pyInt ((amount_out : ℚ) * ps.midPrice * ((10000 + spread_bps : Int) : ℚ) / 10000),
         amount_out)
    let amount_in := amounts.1
    let amount_out := amounts.2
    let ttl_sec : Int :=
      if cfg.ttlRanges.maxSec > cfg.ttlRanges.minSec then
        (cfg.ttlRanges.minSec + cfg.ttlRanges.maxSec).fdiv 2
      else if cfg.ttlRanges.minSec > 0 then cfg.ttlRanges.minSec
      else 300
    let expiry := now + ttl_sec
    let min_out_net := pyInt ((amount_out : ℚ) * 99 / 100)
    let nonceOut := get_next_nonce cfg.maker st1
    let intent : QuoteIntent :=
      { maker := cfg.maker, tokenIn := req.tokenIn, tokenOut := req.tokenOut,
        amountIn := amount_in, amountOut := amount_out, strategyHash := strategy_hash,
        nonce := nonceOut.1, expiry := expiry, minOutNet := min_out_net,
        reason := none, idempotencyKey := req.idempotencyKey }
    (intent, cache_quote req.idempotencyKey intent nonceOut.2)

/-- Embeds `ExplainabilityPayload` (`dump.py` lines 186–205): the source renders
f-strings from these values (lines 655–665); the embedding carries the
values themselves. -/
structure ExplainabilityPayload : Type where
  side : String
  amount : Int
  tokenIn : String
  spreadBps : Int
  amountOut : Int
  tokenOut : String
  ttlSec : Int
  strategyHash : String
  midPrice : ℚ
  confidenceScore : ℚ
  deriving DecidableEq, Repr

/-- Embeds `process_quote_request` from `dump.py` (lines 616–667): staleness, then
the policy gate, then synthesis, then feasibility; every rejection returns
`(None, reason, None)`.  A feasibility failure sets `intent.reason` on the
synthesized object — which the cache also references when the request
carried a truthy idempotency key. -/
def process_quote_request (req : QuoteRequest) (cfg : MakerConfig) (ps : PricingSnapshot)
    (cs : ChainSnapshot) (now : Int) (today : String) (st : State) :
    (Option QuoteIntent × Option String × Option ExplainabilityPayload) × State :=
  if ps.stale then ((none, some SA.RejectionReason.STALE_PRICING, none), st)
  else
    match check_policy_enforcement req cfg today st with
    | (some r, st1) => ((none, some r, none), st1)
    | (none, st1) =>
      let synth := synthesize_quote_intent req cfg ps cs now st1
      let intent := synth.1
      let st2 := synth.2
      match check_on_chain_feasibility req cs intent.amountOut with
      | some r =>
        let intent' := { intent with reason := some r }
        let st3 :=
          match req.idempotencyKey with
          | some k =>
            if k = "" then st2
            else { st2 with quote_cache := setD st2.quote_cache k intent' }
          | none => st2
        ((none, some r, none), st3)
      | none =>
        let spread_bps : Int :=
          match cfg.spreadPresets with
          | p :: _ => p.spreadBps
          | [] => 50
        let expl : ExplainabilityPayload :=
          { side := req.side, amount := req.amount, tokenIn := req.tokenIn,
            spreadBps := spread_bps, amountOut := intent.amountOut,
            tokenOut := req.tokenOut, ttlSec := intent.expiry - now,
            strategyHash := intent.strategyHash, midPrice := ps.midPrice,
            confidenceScore := ps.confidenceScore }
        ((some intent, none, some expl), st2)

end AiWeb3.Dump

namespace AiWeb3.New

/-! ## `src/strategyAgentNew`

The depth-curve evaluator `calculate_impact_and_fee_bps` and the policy
gate / pipeline around it (`enforcer.py`), over the dataclasses of
`datatypes.py`. -/

/-- Embeds `DepthPointDto` (`datatypes.py` lines 24–30): the evaluator reads only
`amountInRaw`, `amountOutRaw` and `impactBps`; the `price` and `provenance`
fields are carried by the source but never read by any embedded logic, so
they are elided.  The three numeric fields are ints in the source; the
evaluator mixes them with float division, so they are carried in `ℚ`. -/
structure DepthPointDto : Type where
  amountInRaw : ℚ
  amountOutRaw : ℚ
  impactBps : ℚ
  deriving DecidableEq, Repr

/-- The `{0, 0, price := mid, 0}` point the evaluator starts from
("point at start of curve with 0 trade volume"). -/
def originPoint : DepthPointDto := ⟨0, 0, 0⟩

/-- The `for point in depth_points` loop of `calculate_impact_and_fee_bps`
(`enforcer.py` lines 82–86): at each step the previous `ideal_point`
becomes `below_ideal_point` and the current point becomes `ideal_point`;
the loop `break`s when the *newly shifted* `below_ideal_point` already
satisfies `amountInRaw >= sell_amount`.  Returns the final
`(below_ideal_point, ideal_point)` pair. -/
def calcLoop (sell : ℚ) : DepthPointDto → DepthPointDto → List DepthPointDto →
    DepthPointDto × DepthPointDto
  | below, ideal, [] => (below, ideal)
  | _, ideal, p :: rest =>
    if ideal.amountInRaw ≥ sell then (ideal, p)
    else calcLoop sell ideal p rest

/-- Embeds `calculate_impact_and_fee_bps` (`enforcer.py` lines 46–91).  After the
loop, both returned values interpolate with the ratio
`(sell_amount − below.amountInRaw) / (ideal.amountInRaw − below.amountInRaw)`;
the `buy_amount` line applies that ratio to the *impact* delta
`(ideal.impactBps − below.impactBps)` added to `below.amountOutRaw` (line
89).  A zero denominator (e.g. an empty curve, where both points are the
origin) raises `ZeroDivisionError`.  Returns `(impact_bps, buy_amount)`. -/
def calculate_impact_and_fee_bps (sell : ℚ) (depth_points : List DepthPointDto)
    (_mid_price : String) : Except PyErr (ℚ × ℚ) :=
  let bi := calcLoop sell originPoint originPoint depth_points
  let below := bi.1
  let ideal := bi.2
  let den := ideal.amountInRaw - below.amountInRaw
  if den = 0 then .error .zeroDivisionError
  else
    .ok (below.impactBps + (ideal.impactBps - below.impactBps) * (sell - below.amountInRaw) / den,
         below.amountOutRaw + (ideal.impactBps - below.impactBps) * (sell - below.amountInRaw) / den)

/-- The strategy `params` dict: the keys the enforcer reads, carried as a
record (`sir.strategy.params["…"]` accesses). -/
structure StrategyParams : Type where
  ttlSec : Int
  feeBps : ℚ
  spreadBps : ℚ
  maxTradeRaw : Int
  maxImpactBps : Int
  minConfidenceScore : ℚ
  rejectIfStale : Bool
  deriving DecidableEq, Repr

/-- Embeds `StrategyInfo` (`datatypes.py` lines 12–17). -/
structure StrategyInfo : Type where
  id : String
  version : Int
  params : StrategyParams
  deriving DecidableEq, Repr

/-- Embeds `PricingSnapshotDto` (`datatypes.py` lines 33–41); `midPrice` stays a
string because the evaluator only stores it into the unused `price` field
of its origin points. -/
structure PricingSnapshotDto : Type where
  asOfMs : Int
  midPrice : String
  depthPoints : List DepthPointDto
  sourcesUsed : List String
  confidenceScore : ℚ
  stale : Bool
  reasonCodes : List String
  deriving DecidableEq, Repr

/-- Embeds `StrategyIntentRequest` (`datatypes.py` lines 43–55). -/
structure StrategyIntentRequest : Type where
  chainId : Int
  maker : String
  executor : String
  taker : String
  sellToken : String
  buyToken : String
  sellAmount : Int
  recipient : String
  pricingSnapshot : PricingSnapshotDto
  strategy : StrategyInfo
  deriving DecidableEq, Repr

/-- The `RejectionReason` string constants of
`strategyAgentNew/datatypes.py` (lines 113–116). -/
def RejectionReason.STALE_PRICING : String := "STALE_PRICING"

def RejectionReason.MAX_IMPACT_BPS_EXCEEDED : String := "MAX_IMPACT_BPS_EXCEEDED"

def RejectionReason.MAX_TRADE_SIZE_EXCEEDED : String := "MAX_TRADE_SIZE_EXCEEDED"

/-- Embeds `check_policy_enforcement` from `strategyAgentNew/enforcer.py` (lines
107–159).  The snapshot's `stale` flag is first forced to `True` when the
snapshot is older than `ttlSec`; `STALE_PRICING` is appended only when the
(possibly forced) flag is true *and* the strategy's `rejectIfStale` param
is true.  Returns `(rejections, buy_amount, stale')` where `stale'` is the
possibly mutated `sir.pricingSnapshot.stale`. -/
def check_policy_enforcement (sir : StrategyIntentRequest) (nowMs : Int) :
    Except PyErr (List String × ℚ × Bool) :=
  let p := sir.strategy.params
  let stale' :=
    if nowMs - sir.pricingSnapshot.asOfMs > p.ttlSec * 1000 then true
    else sir.pricingSnapshot.stale
  let r1 := if stale' ∧ p.rejectIfStale then [RejectionReason.STALE_PRICING] else []
  match calculate_impact_and_fee_bps (sir.sellAmount : ℚ) sir.pricingSnapshot.depthPoints
      sir.pricingSnapshot.midPrice with
  | .error e => .error e
  | .ok ib =>
    let impact_bps := ib.1
    let buy_amount := ib.2
    let r2 := if impact_bps > (p.maxImpactBps : ℚ) then
      [RejectionReason.MAX_IMPACT_BPS_EXCEEDED] else []
    let r3 := if p.maxTradeRaw > 0 ∧ sir.sellAmount > p.maxTradeRaw then
      [RejectionReason.MAX_TRADE_SIZE_EXCEEDED] else []
    .ok (r1 ++ r2 ++ r3, buy_amount, stale')

/-- Embeds `StrategyIntentResponse` as populated by `process_quote_request`
(flattening the nested `strategy`/`pricing` records to the fields the
pipeline writes).  `buyAmount` is the float
`buy_amount * (1 − spreadBps/10000)`. -/
structure StrategyIntentResponse : Type where
  decision : String
  strategyId : String
  strategyVersion : Int
  strategyHash : String
  buyAmount : ℚ
  feeBps : ℚ
  feeAmount : Int
  expiry : Int
  stale : Bool
  reasonCodes : List String
  deriving DecidableEq, Repr

/-- Embeds `process_quote_request` from `strategyAgentNew/enforcer.py` (lines
161–197).  `compute_strategy_hash` is the keccak256 of a deterministic JSON
serialization of the strategy (lines 18–44); the hash value is passed in as
`strategyHash` since keccak is an external primitive the claims never
inspect. -/
def process_quote_request (sir : StrategyIntentRequest) (strategyHash : String)
    (nowMs : Int) : Except PyErr StrategyIntentResponse :=
  match check_policy_enforcement sir nowMs with
  | .error e => .error e
  | .ok out =>
    let rejections := out.1
    let buy_amount := out.2.1
    let stale' := out.2.2
    let p := sir.strategy.params
    let decision := if rejections = [] then "ACCEPT" else "REJECT"
    let reasoncodes := if rejections = [] then ["OK"] else rejections
    .ok { decision := decision, strategyId := sir.strategy.id,
          strategyVersion := sir.strategy.version, strategyHash := strategyHash,
          buyAmount := buy_amount * (1 - p.spreadBps / 10000),
          feeBps := p.feeBps,
          feeAmount := pyInt (p.feeBps * (sir.sellAmount : ℚ) / 10000),
          expiry := sir.pricingSnapshot.asOfMs + p.ttlSec,
          stale := stale', reasonCodes := reasoncodes }

end AiWeb3.New

namespace AiWeb3

/-! ## Claims -/

/-- Modelled from the spec: the closed rejection-reason set of §6
("Rejection reasons (closed set)"), as enumerated by claim C4. -/
def specRejectionReasons : List String :=
  ["MAKER_PAUSED", "INSUFFICIENT_BUDGET", "STALE_PRICING", "PAIR_NOT_ALLOWED",
   "EXCEEDS_MAX_TRADE_SIZE", "EXCEEDS_DAILY_CAP", "STRATEGY_INACTIVE",
   "STRATEGY_DOCKED", "INSUFFICIENT_ALLOWANCE", "INVALID_CHAIN", "INVALID_TOKEN",
   "NONCE_EXHAUSTED", "INTERNAL_ERROR"]

/-- C1, counterexample.  The state store's `next_nonce` does not return the
current counter value: on first use for a maker it returns 1, not 0, because
`get_next_nonce` increments before returning (`datatypes.py` lines 197–200),
so the first accepted intent would carry nonce 1. -/
theorem C1_first_nonce_counterexample :
    (SA.get_next_nonce "m" SA.initialState).1 = 1 ∧
    (SA.get_next_nonce "m" SA.initialState).1 ≠ 0 := by
  decide

/-- C1, amended.  `get_next_nonce` is a pre-increment counter: with the
stored counter `c` (0 on first use), it returns `c + 1` and stores `c + 1`;
an immediately following call returns `c + 2`, so successive calls return
strictly increasing values and the first call for a maker returns 1. -/
theorem C1_next_nonce_pre_increment (maker : String) (st : SA.State) :
    (SA.get_next_nonce maker st).1 = ((lookupD st.maker_nonces maker).getD 0) + 1 ∧
    lookupD (SA.get_next_nonce maker st).2.maker_nonces maker =
      some (((lookupD st.maker_nonces maker).getD 0) + 1) ∧
    (SA.get_next_nonce maker (SA.get_next_nonce maker st).2).1 =
      ((lookupD st.maker_nonces maker).getD 0) + 2 := by
  refine ⟨rfl, ?_, ?_⟩
  · simp [SA.get_next_nonce]
  · simp [SA.get_next_nonce]
    omega

/-- C1, witness for the amended theorem at a fresh store: the first call
returns 1, stores 1, and the second call returns 2. -/
theorem C1_next_nonce_pre_increment_witness :
    (SA.get_next_nonce "m" SA.initialState).1 =
      ((lookupD SA.initialState.maker_nonces "m").getD 0) + 1 ∧
    lookupD (SA.get_next_nonce "m" SA.initialState).2.maker_nonces "m" =
      some (((lookupD SA.initialState.maker_nonces "m").getD 0) + 1) ∧
    (SA.get_next_nonce "m" (SA.get_next_nonce "m" SA.initialState).2).1 =
      ((lookupD SA.initialState.maker_nonces "m").getD 0) + 2 :=
  C1_next_nonce_pre_increment "m" SA.initialState

/-- The rejected request of claim C2's failing input: a paused maker whose
config also carries a matching daily cap that the request does not exceed. -/
def c2cfg : SA.MakerConfig := ⟨"m", "h", true, [], none, some [⟨"USDC", "WETH", 100⟩]⟩

/-- The quote request of claim C2's failing input. -/
def c2req : SA.QuoteRequest := ⟨1, "sell", "USDC", "WETH", 10, "t", none, none⟩

/-- The state left behind by claim C2's failing input: the daily-volume
table records the rejected request's 10 units. -/
def c2stAfter : SA.State := ⟨[], [], [], [("m", [("usdc-weth", ⟨"2026-01-01", 10⟩)])]⟩

/-- C2.  Processing a request that the policy gate rejects does not leave
the state store unchanged: for a paused maker with a matching under-cap
daily cap, `check_policy_enforcement` returns the rejection
`MAKER_PAUSED` *and* commits the request's amount to the maker's
daily-volume table (the `state.add_daily_volume` call inside the gate's
cap check, `enforcer.py` lines 61–69), contradicting the claim that
rejected requests accumulate no daily volume. -/
theorem C2_policy_gate_mutates_state :
    SA.check_policy_enforcement c2req c2cfg "2026-01-01" SA.initialState
      = (.ok [SA.RejectionReason.MAKER_PAUSED], c2stAfter) ∧
    c2stAfter.daily_volumes ≠ SA.initialState.daily_volumes := by
  constructor
  · simp +decide [SA.check_policy_enforcement, SA.dailyCapLoop, SA.add_daily_volume,
      SA.dvEnsure, c2req, c2cfg, c2stAfter, SA.initialState, lookupD, setD, pyLower,
      SA.RejectionReason.MAKER_PAUSED, SA.RejectionReason.DAILY_CAP_EXCEEDED]
  · decide

/-- Committing (or failing to commit) daily volume never touches the
idempotency cache. -/
theorem add_daily_volume_quote_cache (maker tin tout : String) (amount : ℚ)
    (cap : Option ℚ) (today : String) (st : SA.State) :
    ((SA.add_daily_volume maker tin tout amount cap today st).2).quote_cache
      = st.quote_cache := by
  unfold SA.add_daily_volume SA.dvEnsure
  cases cap with
  | none => rfl
  | some c =>
    dsimp only
    split <;> split <;> rfl

/-- The policy gate's daily-cap loop never touches the idempotency cache. -/
theorem dailyCapLoop_quote_cache (req : SA.QuoteRequest) (maker : String) (amount : ℚ)
    (today : String) : ∀ (caps : List SA.DailyCapD) (st : SA.State),
    ((SA.dailyCapLoop req maker amount today caps st).2).quote_cache = st.quote_cache := by
  intro caps
  induction caps with
  | nil => intro st; rfl
  | cons c rest ih =>
    intro st
    by_cases hm : c.tokenIn = req.tokenIn ∧ c.tokenOut = req.tokenOut
    · by_cases hc : c.cap ≤ 0
      · simp [SA.dailyCapLoop, hm, hc]
      · have hq := add_daily_volume_quote_cache maker req.tokenIn req.tokenOut amount
          (some c.cap) today st
        rcases hadv : SA.add_daily_volume maker req.tokenIn req.tokenOut amount
          (some c.cap) today st with ⟨b, st'⟩
        rw [hadv] at hq
        cases b <;> simp [SA.dailyCapLoop, hm, hc, hadv] <;> exact hq
    · simp [SA.dailyCapLoop, hm, ih st]

/-- The cached intent of claim C3's run: unexpired (expiry 1000). -/
def c3intent : SA.QuoteIntent := ⟨"m", "USDC", "WETH", 10, 5, "h", 1, 1000, 4, none, some "k1"⟩

/-- A state whose idempotency cache holds `c3intent` under key `"k1"`. -/
def c3st : SA.State := ⟨[("m", 1)], [("k1", c3intent)], [], []⟩

/-- A benign maker config for claim C3's replayed request. -/
def c3cfg : SA.MakerConfig := ⟨"m", "h", false, [], none, none⟩

/-- The replayed request of claim C3, carrying the cached key `"k1"`. -/
def c3req : SA.QuoteRequest := ⟨1, "sell", "USDC", "WETH", 10, "t", none, some "k1"⟩

/-- A fresh, non-stale pricing snapshot for claim C3's run. -/
def c3ps : SA.PricingSnapshot := ⟨2, 1, false, 0⟩

/-- An active chain snapshot for claim C3's run. -/
def c3cs : SA.ChainSnapshot := ⟨1, "m", "h", "ACTIVE", []⟩

/-- C3, counterexample.  A second request with the cached, unexpired key
`"k1"` does not return the cached intent: the pipeline fails with
`AttributeError`, because the policy gate's repeated-key branch evaluates
`RejectionReason.REPEATED_IDEMPOTENCY_KEY` (`enforcer.py` line 76), an
attribute the `RejectionReason` class does not define — even though
`get_cached_quote` would have produced the cached intent. -/
theorem C3_replay_counterexample :
    SA.process_quote_request c3req c3cfg c3ps c3cs 500 "2026-01-01" c3st
      = (.error .attributeError, c3st) ∧
    SA.get_cached_quote "k1" 500 c3st = (some c3intent, c3st) := by
  constructor
  · simp +decide [SA.process_quote_request, SA.synthesize_quote_intent,
      SA.get_cached_quote, SA.check_policy_enforcement, SA.dailyCapLoop, lookupD,
      c3req, c3cfg, c3ps, c3cs, c3st, c3intent]
  · simp +decide [SA.get_cached_quote, lookupD, c3st, c3intent]

/-- C3, amended.  The cache's `get` itself behaves as claimed — a key bound
to an intent is returned exactly when its expiry is strictly in the future,
and an expired entry is evicted at lookup — but a second request whose key
is still cached does not get the cached intent back: the policy gate treats
a repeated idempotency key as a violation and, as written, raises
`AttributeError` (undefined `RejectionReason.REPEATED_IDEMPOTENCY_KEY`), so
the pipeline errors instead of replaying the intent. -/
theorem C3_cache_semantics_and_replay :
    (∀ (k : String) (now : Int) (st : SA.State) (c : SA.QuoteIntent),
        k ≠ "" → lookupD st.quote_cache k = some c → c.expiry > now →
        SA.get_cached_quote k now st = (some c, st)) ∧
    (∀ (k : String) (now : Int) (st : SA.State) (c : SA.QuoteIntent),
        k ≠ "" → lookupD st.quote_cache k = some c → ¬ c.expiry > now →
        SA.get_cached_quote k now st =
          (none, { st with quote_cache := removeD st.quote_cache k })) ∧
    (∀ (req : SA.QuoteRequest) (cfg : SA.MakerConfig) (today : String) (st : SA.State)
        (k : String), req.idempotencyKey = some k →
        (lookupD st.quote_cache k).isSome = true →
        (SA.check_policy_enforcement req cfg today st).1 = .error .attributeError) := by
  refine ⟨?_, ?_, ?_⟩
  · intro k now st c hk hl he
    simp [SA.get_cached_quote, hk, hl, he]
  · intro k now st c hk hl he
    simp [SA.get_cached_quote, hk, hl, he]
  · intro req cfg today st k hreq hsome
    have hqc : (match cfg.daily_caps with
        | some caps => SA.dailyCapLoop req cfg.maker req.amount today caps st
        | none => (([] : List String), st)).2.quote_cache = st.quote_cache := by
      cases cfg.daily_caps <;> simp [dailyCapLoop_quote_cache]
    simp only [SA.check_policy_enforcement, hreq]
    rw [hqc, hsome]
    simp

/-- C3, witness for the amended theorem: the cached key `"k1"` is returned
before expiry, evicted after expiry, and its replay makes the gate raise. -/
theorem C3_cache_semantics_and_replay_witness :
    SA.get_cached_quote "k1" 500 c3st = (some c3intent, c3st) ∧
    SA.get_cached_quote "k1" 2000 c3st =
      (none, { c3st with quote_cache := removeD c3st.quote_cache "k1" }) ∧
    (SA.check_policy_enforcement c3req c3cfg "2026-01-01" c3st).1 = .error .attributeError :=
  ⟨C3_cache_semantics_and_replay.1 "k1" 500 c3st c3intent (by decide) (by decide) (by decide),
   C3_cache_semantics_and_replay.2.1 "k1" 2000 c3st c3intent (by decide) (by decide) (by decide),
   C3_cache_semantics_and_replay.2.2 c3req c3cfg "2026-01-01" c3st "k1" (by decide) (by decide)⟩

/-- A reason produced by the dump daily-cap loop is always
`DAILY_CAP_EXCEEDED`. -/
theorem dump_dailyCapLoop_fst_eq (req : Dump.QuoteRequest) (maker : String) (amount : Int)
    (today : String) : ∀ (caps : List Dump.DailyCapD) (st : Dump.State) (r : String),
    (Dump.dailyCapLoop req maker amount today caps st).1 = some r →
    r = SA.RejectionReason.DAILY_CAP_EXCEEDED := by
  intro caps
  induction caps with
  | nil => intro st r h; simp [Dump.dailyCapLoop] at h
  | cons c rest ih =>
    intro st r h
    rw [Dump.dailyCapLoop] at h
    split at h
    · rcases hdv : Dump.get_daily_volume maker req.tokenIn req.tokenOut today st with ⟨cur, st1⟩
      rw [hdv] at h
      dsimp only at h
      split at h
      · exact (Option.some.inj h).symm
      · exact ih st1 r h
    · exact ih st r h

/-- A reason returned by the dump policy gate is one of its four policy
reasons. -/
theorem dump_policy_reason_eq (req : Dump.QuoteRequest) (cfg : Dump.MakerConfig)
    (today : String) (st : Dump.State) (r : String) :
    (Dump.check_policy_enforcement req cfg today st).1 = some r →
    r = SA.RejectionReason.MAKER_PAUSED ∨ r = SA.RejectionReason.PAIR_NOT_ALLOWED ∨
    r = SA.RejectionReason.MAX_TRADE_SIZE_EXCEEDED ∨
    r = SA.RejectionReason.DAILY_CAP_EXCEEDED := by
  intro h
  unfold Dump.check_policy_enforcement at h
  split at h
  · exact Or.inl (Option.some.inj h).symm
  · dsimp only at h
    split at h
    · exact Or.inr (Or.inl (Option.some.inj h).symm)
    · split at h
      · exact Or.inr (Or.inr (Or.inl (Option.some.inj h).symm))
      · split at h
        · exact Or.inr (Or.inr (Or.inr (dump_dailyCapLoop_fst_eq req cfg.maker req.amount today _ st r h)))
        · simp at h

/-- A reason returned by the dump feasibility gate is one of its three
feasibility reasons. -/
theorem dump_feasibility_reason_eq (req : Dump.QuoteRequest) (cs : Dump.ChainSnapshot)
    (amount_out : Int) (r : String) :
    Dump.check_on_chain_feasibility req cs amount_out = some r →
    r = SA.RejectionReason.STRATEGY_INACTIVE ∨ r = SA.RejectionReason.INSUFFICIENT_BUDGET ∨
    r = SA.RejectionReason.INSUFFICIENT_ALLOWANCE := by
  intro h
  unfold Dump.check_on_chain_feasibility at h
  split at h
  · exact Or.inl (Option.some.inj h).symm
  · split at h
    · exact Or.inr (Or.inl (Option.some.inj h).symm)
    · split at h
      · exact Or.inr (Or.inr (Option.some.inj h).symm)
      · split at h
        · exact Or.inr (Or.inr (Option.some.inj h).symm)
        · simp at h

/-- The maker config of claim C4's rejected run: max trade size 100. -/
def c4cfg : Dump.MakerConfig := ⟨"m", [], 100, none, ⟨60, 3600⟩, [⟨50⟩], false, []⟩

/-- The oversize request of claim C4's rejected run: amount 200. -/
def c4req : Dump.QuoteRequest := ⟨1, "sell", "USDC", "WETH", 200, "t", none, none⟩

/-- A fresh pricing snapshot for claim C4's run. -/
def c4ps : Dump.PricingSnapshot := ⟨2, 1, false⟩

/-- An active chain snapshot for claim C4's run. -/
def c4cs : Dump.ChainSnapshot := ⟨1, "m", "h", 1000, [("WETH", 1000)], "ACTIVE"⟩

/-- C4, counterexample.  The pipeline's rejection for an oversize trade
carries the reason string `MAX_TRADE_SIZE_EXCEEDED`, which is not a member
of the claim's closed set (the spec names it `EXCEEDS_MAX_TRADE_SIZE`), and
the rejected result carries no intent at all (`None`), so no rejected
intent with nonce −1 and zero amounts is emitted. -/
theorem C4_reason_set_counterexample :
    Dump.process_quote_request c4req c4cfg c4ps c4cs 100 "2026-01-01" Dump.initialState
      = ((none, some "MAX_TRADE_SIZE_EXCEEDED", none), Dump.initialState) ∧
    "MAX_TRADE_SIZE_EXCEEDED" ∉ specRejectionReasons := by
  constructor
  · simp +decide [Dump.process_quote_request, Dump.check_policy_enforcement,
      Dump.dailyCapLoop, c4req, c4cfg, c4ps, c4cs, Dump.initialState, pyLower,
      SA.RejectionReason.MAX_TRADE_SIZE_EXCEEDED]
  · decide

/-- C4, amended.  Every rejection the dump pipeline emits carries a reason
from the code's eight-name `RejectionReason` set — `MAKER_PAUSED`,
`INSUFFICIENT_BUDGET`, `STALE_PRICING`, `PAIR_NOT_ALLOWED`,
`STRATEGY_INACTIVE`, `INSUFFICIENT_ALLOWANCE`, `MAX_TRADE_SIZE_EXCEEDED`,
`DAILY_CAP_EXCEEDED` — and the rejected result carries no intent object and
no explainability payload (both `None`); no rejected intent with nonce −1
and zeroed amounts exists. -/
theorem C4_rejection_reason_and_shape (req : Dump.QuoteRequest) (cfg : Dump.MakerConfig)
    (ps : Dump.PricingSnapshot) (cs : Dump.ChainSnapshot) (now : Int) (today : String)
    (st : Dump.State) (i : Option Dump.QuoteIntent) (r : String)
    (e : Option Dump.ExplainabilityPayload) (st' : Dump.State)
    (h : Dump.process_quote_request req cfg ps cs now today st = ((i, some r, e), st')) :
    r ∈ Dump.rejectionReasonValues ∧ i = none ∧ e = none := by
  unfold Dump.process_quote_request at h
  by_cases hs : ps.stale
  · rw [if_pos hs] at h
    simp only [Prod.mk.injEq] at h
    obtain ⟨⟨hi, hr, he⟩, _⟩ := h
    obtain rfl := Option.some.inj hr
    exact ⟨by decide, hi.symm, he.symm⟩
  · rw [if_neg hs] at h
    rcases hpol : Dump.check_policy_enforcement req cfg today st with ⟨pr, st1⟩
    rw [hpol] at h
    cases pr with
    | some r0 =>
      dsimp only at h
      simp only [Prod.mk.injEq] at h
      obtain ⟨⟨hi, hr, he⟩, _⟩ := h
      obtain rfl := Option.some.inj hr
      have hmem := dump_policy_reason_eq req cfg today st r0 (by rw [hpol])
      refine ⟨?_, hi.symm, he.symm⟩
      rcases hmem with rfl | rfl | rfl | rfl <;> decide
    | none =>
      dsimp only at h
      rcases hfe : Dump.check_on_chain_feasibility req cs
          (Dump.synthesize_quote_intent req cfg ps cs now st1).1.amountOut with _ | r0
      · rw [hfe] at h
        dsimp only at h
        simp only [Prod.mk.injEq] at h
        exact absurd h.1.2.1 (by simp)
      · rw [hfe] at h
        dsimp only at h
        simp only [Prod.mk.injEq] at h
        obtain ⟨⟨hi, hr, he⟩, _⟩ := h
        obtain rfl := Option.some.inj hr
        have hmem := dump_feasibility_reason_eq req cs _ r0 hfe
        refine ⟨?_, hi.symm, he.symm⟩
        rcases hmem with rfl | rfl | rfl <;> decide

/-- C4, witness for the amended theorem: the oversize-trade rejection's
reason is in the code's set and its intent and explainability are `None`. -/
theorem C4_rejection_reason_and_shape_witness :
    "MAX_TRADE_SIZE_EXCEEDED" ∈ Dump.rejectionReasonValues ∧
    (none : Option Dump.QuoteIntent) = none ∧
    (none : Option Dump.ExplainabilityPayload) = none :=
  C4_rejection_reason_and_shape c4req c4cfg c4ps c4cs 100 "2026-01-01" Dump.initialState
    none "MAX_TRADE_SIZE_EXCEEDED" none Dump.initialState
    (by simp +decide [Dump.process_quote_request, Dump.check_policy_enforcement,
      Dump.dailyCapLoop, c4req, c4cfg, c4ps, c4cs, Dump.initialState, pyLower,
      SA.RejectionReason.MAX_TRADE_SIZE_EXCEEDED])

/-- The strictly increasing two-point depth curve used against the
evaluator claims: cumulative points (16, 100, 0 bps) and (32, 200, 16 bps). -/
def c5curve : List New.DepthPointDto := [⟨16, 100, 0⟩, ⟨32, 200, 16⟩]

/-- C5.  At `sell_amount = 24`, strictly between the two points, the claim's
interpolation gives `buy = 100 + (200 − 100)·(24−16)/(32−16) = 150`, but the
evaluator returns 108: line 89 of `strategyAgentNew/enforcer.py` adds the
*impact* delta `(16 − 0)·1/2 = 8` to the previous output instead of the
output delta.  At `sell_amount = 32`, exactly the last point, the claim
demands the point's `amount_out_raw = 200` verbatim, but the evaluator
returns `100 + 16 = 116` (impact is verbatim, output is not). -/
theorem C5_interpolation_eval :
    New.calculate_impact_and_fee_bps 24 c5curve "0.5" = .ok (8, 108) ∧
    ¬ New.calculate_impact_and_fee_bps 24 c5curve "0.5" = .ok (8, 150) ∧
    New.calculate_impact_and_fee_bps 32 c5curve "0.5" = .ok (16, 116) ∧
    ¬ New.calculate_impact_and_fee_bps 32 c5curve "0.5" = .ok (16, 200) := by
  have h1 : New.calculate_impact_and_fee_bps 24 c5curve "0.5" = .ok (8, 108) := by
    norm_num [New.calculate_impact_and_fee_bps, New.calcLoop, New.originPoint, c5curve]
  have h2 : New.calculate_impact_and_fee_bps 32 c5curve "0.5" = .ok (16, 116) := by
    norm_num [New.calculate_impact_and_fee_bps, New.calcLoop, New.originPoint, c5curve]
  refine ⟨h1, ?_, h2, ?_⟩
  · rw [h1]; simp
  · rw [h2]; simp

/-- C6, counterexample.  For `sell_amount = 48`, strictly beyond the curve's
last point (32, 200, 16 bps), the claim demands the last point unchanged —
buy 200, impact 16 — but the evaluator returns impact 32 and buy 132: it
extrapolates the final segment with ratio `(48 − 16)/(32 − 16) = 2` instead
of saturating. -/
theorem C6_saturation_counterexample :
    New.calculate_impact_and_fee_bps 48 c5curve "0.5" = .ok (32, 132) ∧
    ¬ New.calculate_impact_and_fee_bps 48 c5curve "0.5" = .ok (16, 200) := by
  have h1 : New.calculate_impact_and_fee_bps 48 c5curve "0.5" = .ok (32, 132) := by
    norm_num [New.calculate_impact_and_fee_bps, New.calcLoop, New.originPoint, c5curve]
  exact ⟨h1, by rw [h1]; simp⟩

/-- When the sell amount strictly exceeds every traversed point, the loop
never breaks and ends on the curve's final segment: the last point as
`ideal_point` and its predecessor (or the origin) as `below_ideal_point`. -/
theorem calcLoop_no_break (sell : ℚ) : ∀ (pts : List New.DepthPointDto)
    (b i : New.DepthPointDto), pts ≠ [] → i.amountInRaw < sell →
    (∀ p ∈ pts, p.amountInRaw < sell) →
    New.calcLoop sell b i pts = (pts.dropLast.getLastD i, pts.getLastD i) := by
  intro pts
  induction pts with
  | nil => intro b i h; exact absurd rfl h
  | cons p rest ih =>
    intro b i _hne hi hall
    rw [New.calcLoop, if_neg (not_le.mpr hi)]
    cases rest with
    | nil => simp [New.calcLoop]
    | cons q rest' =>
      rw [ih i p (by simp) (hall p (by simp)) (fun x hx => hall x (by simp [hx]))]
      rw [show ((p :: q :: rest').dropLast) = p :: (q :: rest').dropLast from rfl]
      simp only [List.getLastD_cons]

/-- C6, amended.  For a non-empty curve and a positive `sell_amount`
strictly greater than every point's `amount_in_raw` (for an increasing
curve: greater than the last point's), the evaluator does not saturate at
the last cumulative point: it linearly extrapolates the final traversed
segment — from the last point's predecessor `prev` (the origin when the
curve has one point) to the last point `last` — with ratio
`(sell − prev.in)/(last.in − prev.in) > 1`, applying the *impact* delta to
both the returned impact and (per the buy-amount formula of line 89) the
returned buy amount. -/
theorem C6_beyond_curve_extrapolates (pts : List New.DepthPointDto) (sell : ℚ)
    (mid : String) (hne : pts ≠ []) (h0 : 0 < sell)
    (hall : ∀ p ∈ pts, p.amountInRaw < sell)
    (hden : (pts.getLastD New.originPoint).amountInRaw ≠
      (pts.dropLast.getLastD New.originPoint).amountInRaw) :
    New.calculate_impact_and_fee_bps sell pts mid =
      .ok ((pts.dropLast.getLastD New.originPoint).impactBps +
             ((pts.getLastD New.originPoint).impactBps -
               (pts.dropLast.getLastD New.originPoint).impactBps) *
               (sell - (pts.dropLast.getLastD New.originPoint).amountInRaw) /
               ((pts.getLastD New.originPoint).amountInRaw -
                 (pts.dropLast.getLastD New.originPoint).amountInRaw),
           (pts.dropLast.getLastD New.originPoint).amountOutRaw +
             ((pts.getLastD New.originPoint).impactBps -
               (pts.dropLast.getLastD New.originPoint).impactBps) *
               (sell - (pts.dropLast.getLastD New.originPoint).amountInRaw) /
               ((pts.getLastD New.originPoint).amountInRaw -
                 (pts.dropLast.getLastD New.originPoint).amountInRaw)) := by
  unfold New.calculate_impact_and_fee_bps
  rw [calcLoop_no_break sell pts New.originPoint New.originPoint hne
    (by simpa [New.originPoint] using h0) hall]
  dsimp only
  rw [if_neg (sub_ne_zero.mpr hden)]

/-- C6, witness for the amended theorem, at the two-point curve and
`sell_amount = 48`. -/
theorem C6_beyond_curve_extrapolates_witness :
    New.calculate_impact_and_fee_bps 48 c5curve "0.5" =
      .ok ((c5curve.dropLast.getLastD New.originPoint).impactBps +
             ((c5curve.getLastD New.originPoint).impactBps -
               (c5curve.dropLast.getLastD New.originPoint).impactBps) *
               (48 - (c5curve.dropLast.getLastD New.originPoint).amountInRaw) /
               ((c5curve.getLastD New.originPoint).amountInRaw -
                 (c5curve.dropLast.getLastD New.originPoint).amountInRaw),
           (c5curve.dropLast.getLastD New.originPoint).amountOutRaw +
             ((c5curve.getLastD New.originPoint).impactBps -
               (c5curve.dropLast.getLastD New.originPoint).impactBps) *
               (48 - (c5curve.dropLast.getLastD New.originPoint).amountInRaw) /
               ((c5curve.getLastD New.originPoint).amountInRaw -
                 (c5curve.dropLast.getLastD New.originPoint).amountInRaw)) :=
  C6_beyond_curve_extrapolates c5curve 48 "0.5" (by decide) (by decide) (by decide) (by decide)

/-- The strictly increasing three-point depth curve refuting monotonicity:
(16, 100, 0), (32, 101, 16), (48, 102, 1024); every coordinate is strictly
increasing. -/
def c7curve : List New.DepthPointDto := [⟨16, 100, 0⟩, ⟨32, 101, 16⟩, ⟨48, 102, 1024⟩]

/-- C7.  The evaluator is not monotone in the sell amount: on the strictly
increasing curve `c7curve`, selling 16 buys 100 while selling 17 buys −844.
The loop's late break pairs `sell = 17` with the segment from (32, 101, 16)
to (48, 102, 1024), producing the negative ratio `(17 − 32)/16`, and the
buy formula applies the large impact delta 1008 to it. -/
theorem C7_monotonicity_eval :
    New.calculate_impact_and_fee_bps 16 c7curve "0.5" = .ok (0, 100) ∧
    New.calculate_impact_and_fee_bps 17 c7curve "0.5" = .ok (-929, -844) ∧
    (16 : ℚ) ≤ 17 ∧ ¬ ((100 : ℚ) ≤ -844) := by
  refine ⟨?_, ?_, by norm_num, by norm_num⟩
  · norm_num [New.calculate_impact_and_fee_bps, New.calcLoop, New.originPoint, c7curve]
  · norm_num [New.calculate_impact_and_fee_bps, New.calcLoop, New.originPoint, c7curve]

/-- Strategy params for claim C8's run: `rejectIfStale` disabled, ample
impact and trade-size limits. -/
def c8params : New.StrategyParams := ⟨15, 10, 0, 32, 80, 1, false⟩

/-- Claim C8's request: the pricing snapshot carries `stale = true`, the
snapshot is fresh enough not to be re-flagged (`asOfMs = nowMs = 0`), and
every other check passes. -/
def c8sir : New.StrategyIntentRequest :=
  ⟨8453, "m", "e", "t", "S", "B", 16, "r",
   ⟨0, "0.5", c5curve, ["src"], 1, true, []⟩, ⟨"sid", 1, c8params⟩⟩

/-- The response the pipeline produces for claim C8's stale request. -/
def c8resp : New.StrategyIntentResponse :=
  ⟨"ACCEPT", "sid", 1, "0xhash", 100, 10, 0, 15, true, ["OK"]⟩

/-- C8, counterexample.  A request whose pricing snapshot carries
`stale = true` is *accepted* by the strategyAgentNew pipeline when the
strategy's `rejectIfStale` param is false: the decision is `ACCEPT` and no
`STALE_PRICING` reason is emitted, refuting "rejects … regardless of the
values of all other inputs". -/
theorem C8_stale_accept_counterexample :
    New.process_quote_request c8sir "0xhash" 0 = .ok c8resp ∧
    c8sir.pricingSnapshot.stale = true ∧
    c8resp.decision = "ACCEPT" ∧
    New.RejectionReason.STALE_PRICING ∉ c8resp.reasonCodes := by
  refine ⟨?_, by decide, by decide, by decide⟩
  norm_num [New.process_quote_request, New.check_policy_enforcement,
    New.calculate_impact_and_fee_bps, New.calcLoop, New.originPoint, c8sir, c8params,
    c5curve, c8resp, pyInt, New.RejectionReason.STALE_PRICING,
    New.RejectionReason.MAX_IMPACT_BPS_EXCEEDED, New.RejectionReason.MAX_TRADE_SIZE_EXCEEDED]

/-- C8, amended.  A stale snapshot yields `STALE_PRICING` only when the
strategy's `rejectIfStale` parameter is set: whenever the gate returns at
all and both `stale` and `rejectIfStale` are true, `STALE_PRICING` is among
the rejections — regardless of the remaining inputs.  (With `rejectIfStale`
false the stale snapshot can be accepted, per the counterexample.) -/
theorem C8_stale_rejected_when_flag_set (sir : New.StrategyIntentRequest) (nowMs : Int)
    (rs : List String) (buy : ℚ) (stale' : Bool)
    (hstale : sir.pricingSnapshot.stale = true)
    (hflag : sir.strategy.params.rejectIfStale = true)
    (h : New.check_policy_enforcement sir nowMs = .ok (rs, buy, stale')) :
    New.RejectionReason.STALE_PRICING ∈ rs := by
  unfold New.check_policy_enforcement at h
  rcases hcal : New.calculate_impact_and_fee_bps (sir.sellAmount : ℚ)
      sir.pricingSnapshot.depthPoints sir.pricingSnapshot.midPrice with e | ib
  · rw [hcal] at h
    exact absurd h (by simp)
  · rw [hcal] at h
    dsimp only at h
    have hrs := congrArg Prod.fst (Except.ok.inj h)
    dsimp only at hrs
    rw [← hrs]
    simp [hstale, hflag]

/-- Strategy params identical to `c8params` but with `rejectIfStale` set. -/
def c8paramsFlag : New.StrategyParams := ⟨15, 10, 0, 32, 80, 1, true⟩

/-- Claim C8's request with `rejectIfStale` enabled. -/
def c8sirFlag : New.StrategyIntentRequest :=
  ⟨8453, "m", "e", "t", "S", "B", 16, "r",
   ⟨0, "0.5", c5curve, ["src"], 1, true, []⟩, ⟨"sid", 1, c8paramsFlag⟩⟩

/-- C8, witness for the amended theorem: with `rejectIfStale` set, the
stale request's rejection list contains `STALE_PRICING`. -/
theorem C8_stale_rejected_when_flag_set_witness :
    New.RejectionReason.STALE_PRICING ∈ ["STALE_PRICING"] :=
  C8_stale_rejected_when_flag_set c8sirFlag 0 ["STALE_PRICING"] 100 true
    (by decide) (by decide)
    (by norm_num [New.check_policy_enforcement, New.calculate_impact_and_fee_bps,
      New.calcLoop, New.originPoint, c8sirFlag, c8paramsFlag, c5curve,
      New.RejectionReason.STALE_PRICING, New.RejectionReason.MAX_IMPACT_BPS_EXCEEDED,
      New.RejectionReason.MAX_TRADE_SIZE_EXCEEDED])

/-- A reason produced by the strategy-agent daily-cap loop is always
`DAILY_CAP_EXCEEDED`. -/
theorem sa_dailyCapLoop_mem (req : SA.QuoteRequest) (maker : String) (amount : ℚ)
    (today : String) : ∀ (caps : List SA.DailyCapD) (st : SA.State) (r : String),
    r ∈ (SA.dailyCapLoop req maker amount today caps st).1 →
    r = SA.RejectionReason.DAILY_CAP_EXCEEDED := by
  intro caps
  induction caps with
  | nil => intro st r h; simp [SA.dailyCapLoop] at h
  | cons c rest ih =>
    intro st r h
    rw [SA.dailyCapLoop] at h
    split at h
    · split at h
      · simp at h
      · rcases hadv : SA.add_daily_volume maker req.tokenIn req.tokenOut amount
          (some c.cap) today st with ⟨b, st'⟩
        rw [hadv] at h
        cases b
        · dsimp only at h; simp at h
        · dsimp only at h; simpa using h
    · exact ih st r h

/-- Characterization of `PAIR_NOT_ALLOWED` in a successful strategy-agent
policy-gate run: it is emitted exactly when the allowlist is non-empty and
no allowed pair matches the request's `(tokenIn, tokenOut)` *in that
order* (case-insensitively) — the membership test is ordered, not
symmetric. -/
theorem sa_gate_pair_not_allowed_iff (req : SA.QuoteRequest) (cfg : SA.MakerConfig)
    (today : String) (st : SA.State) (rs : List String) (st' : SA.State)
    (h : SA.check_policy_enforcement req cfg today st = (.ok rs, st')) :
    (SA.RejectionReason.PAIR_NOT_ALLOWED ∈ rs ↔
      cfg.allowed_pairs ≠ [] ∧ ∀ p ∈ cfg.allowed_pairs,
        ¬ (pyLower p.tokenIn = pyLower req.tokenIn ∧
           pyLower p.tokenOut = pyLower req.tokenOut)) := by
  unfold SA.check_policy_enforcement at h
  dsimp only at h
  split at h
  · exact absurd h (by simp)
  · simp only [Prod.mk.injEq, Except.ok.injEq] at h
    obtain ⟨hrs, -⟩ := h
    subst hrs
    constructor
    · intro hmem
      simp only [List.mem_append] at hmem
      rcases hmem with ((h1 | h2) | h3) | h4
      · by_cases hp : cfg.paused
        · rw [if_pos hp] at h1
          simp [SA.RejectionReason.PAIR_NOT_ALLOWED, SA.RejectionReason.MAKER_PAUSED] at h1
        · rw [if_neg hp] at h1
          simp at h1
      · by_cases hc : (cfg.allowed_pairs.any fun p =>
            pyLower p.tokenIn == pyLower req.tokenIn &&
            pyLower p.tokenOut == pyLower req.tokenOut) = false ∧
            cfg.allowed_pairs.length > 0
        · refine ⟨List.length_pos.mp hc.2, ?_⟩
          intro p hp hcontra
          have hf := List.any_eq_false.mp hc.1 p hp
          apply hf
          simp [hcontra.1, hcontra.2]
        · rw [if_neg hc] at h2
          simp at h2
      · by_cases hm : (cfg.max_trade_size).getD 0 > 0 ∧ req.amount > (cfg.max_trade_size).getD 0
        · rw [if_pos hm] at h3
          simp [SA.RejectionReason.PAIR_NOT_ALLOWED,
            SA.RejectionReason.MAX_TRADE_SIZE_EXCEEDED] at h3
        · rw [if_neg hm] at h3
          simp at h3
      · have : SA.RejectionReason.PAIR_NOT_ALLOWED = SA.RejectionReason.DAILY_CAP_EXCEEDED := by
          rcases hdc : cfg.daily_caps with _ | caps
          · rw [hdc] at h4; simp at h4
          · rw [hdc] at h4
            exact sa_dailyCapLoop_mem req cfg.maker req.amount today caps st _ h4
        simp [SA.RejectionReason.PAIR_NOT_ALLOWED, SA.RejectionReason.DAILY_CAP_EXCEEDED] at this
    · rintro ⟨hne, hnone⟩
      have hpa : (cfg.allowed_pairs.any fun p =>
          pyLower p.tokenIn == pyLower req.tokenIn &&
          pyLower p.tokenOut == pyLower req.tokenOut) = false := by
        rw [List.any_eq_false]
        intro p hp hf
        simp only [Bool.and_eq_true, beq_iff_eq] at hf
        exact hnone p hp hf
      have hlen : cfg.allowed_pairs.length > 0 := List.length_pos.mpr hne
      simp only [List.mem_append]
      left; left; right
      rw [if_pos ⟨hpa, hlen⟩]
      simp

/-- The maker config of claim C9's run: the single allowed pair A/B. -/
def c9cfg : SA.MakerConfig := ⟨"m", "h", false, [⟨"A", "B"⟩], none, none⟩

/-- Claim C9's request quoting the listed direction A→B. -/
def c9reqAB : SA.QuoteRequest := ⟨1, "sell", "A", "B", 10, "t", none, none⟩

/-- Claim C9's request quoting the reversed direction B→A. -/
def c9reqBA : SA.QuoteRequest := ⟨1, "sell", "B", "A", 10, "t", none, none⟩

/-- C9, counterexample.  With exactly A/B allowed, the request A→B passes
the pair check (no rejection) while the reversed request B→A is rejected
with `PAIR_NOT_ALLOWED`: membership is ordered, so the claimed symmetry
("(A, B) passes iff (B, A) passes") is false. -/
theorem C9_symmetry_counterexample :
    SA.check_policy_enforcement c9reqAB c9cfg "2026-01-01" SA.initialState
      = (.ok [], SA.initialState) ∧
    SA.check_policy_enforcement c9reqBA c9cfg "2026-01-01" SA.initialState
      = (.ok [SA.RejectionReason.PAIR_NOT_ALLOWED], SA.initialState) := by
  constructor
  · simp +decide [SA.check_policy_enforcement, SA.dailyCapLoop, lookupD, pyLower,
      c9reqAB, c9cfg, SA.initialState]
  · simp +decide [SA.check_policy_enforcement, SA.dailyCapLoop, lookupD, pyLower,
      c9reqBA, c9cfg, SA.initialState, SA.RejectionReason.PAIR_NOT_ALLOWED]

/-- C9, amended.  Allowed-pair membership in the strategy-agent policy gate
is ordered, not symmetric: whenever the gate returns successfully,
`PAIR_NOT_ALLOWED` is among the rejections exactly when the allowlist is
non-empty and no allowed pair matches the request with `tokenIn` against
`tokenIn` and `tokenOut` against `tokenOut` (case-insensitively); a policy
listing only A/B therefore rejects a request quoting B/A. -/
theorem C9_pair_membership_ordered (req : SA.QuoteRequest) (cfg : SA.MakerConfig)
    (today : String) (st : SA.State) (rs : List String) (st' : SA.State)
    (h : SA.check_policy_enforcement req cfg today st = (.ok rs, st')) :
    (SA.RejectionReason.PAIR_NOT_ALLOWED ∈ rs ↔
      cfg.allowed_pairs ≠ [] ∧ ∀ p ∈ cfg.allowed_pairs,
        ¬ (pyLower p.tokenIn = pyLower req.tokenIn ∧
           pyLower p.tokenOut = pyLower req.tokenOut)) :=
  sa_gate_pair_not_allowed_iff req cfg today st rs st' h

/-- C9, witness for the amended theorem, at the reversed request B→A. -/
theorem C9_pair_membership_ordered_witness :
    SA.RejectionReason.PAIR_NOT_ALLOWED ∈ [SA.RejectionReason.PAIR_NOT_ALLOWED] ↔
      c9cfg.allowed_pairs ≠ [] ∧ ∀ p ∈ c9cfg.allowed_pairs,
        ¬ (pyLower p.tokenIn = pyLower c9reqBA.tokenIn ∧
           pyLower p.tokenOut = pyLower c9reqBA.tokenOut) :=
  C9_pair_membership_ordered c9reqBA c9cfg "2026-01-01" SA.initialState
    [SA.RejectionReason.PAIR_NOT_ALLOWED] SA.initialState
    (by simp +decide [SA.check_policy_enforcement, SA.dailyCapLoop, lookupD, pyLower,
      c9reqBA, c9cfg, SA.initialState, SA.RejectionReason.PAIR_NOT_ALLOWED])

/-- C10.  When a maker's allowed-pairs list is empty, the pair check passes
for every request: a successful run of the strategy-agent policy gate never
contains `PAIR_NOT_ALLOWED` — the empty allowlist means "allow
everything". -/
theorem C10_empty_allowlist_allows_all (req : SA.QuoteRequest) (cfg : SA.MakerConfig)
    (today : String) (st : SA.State) (rs : List String) (st' : SA.State)
    (hempty : cfg.allowed_pairs = [])
    (h : SA.check_policy_enforcement req cfg today st = (.ok rs, st')) :
    SA.RejectionReason.PAIR_NOT_ALLOWED ∉ rs := by
  intro hmem
  exact ((sa_gate_pair_not_allowed_iff req cfg today st rs st' h).mp hmem).1 hempty

/-- A maker config with an empty allowlist for claim C10's witness. -/
def c10cfg : SA.MakerConfig := ⟨"m", "h", false, [], none, none⟩

/-- An arbitrary request for claim C10's witness. -/
def c10req : SA.QuoteRequest := ⟨1, "sell", "X", "Y", 10, "t", none, none⟩

/-- C10, witness: the empty-allowlist gate run rejects nothing, and in
particular not the pair. -/
theorem C10_empty_allowlist_allows_all_witness :
    SA.RejectionReason.PAIR_NOT_ALLOWED ∉ ([] : List String) :=
  C10_empty_allowlist_allows_all c10req c10cfg "2026-01-01" SA.initialState []
    SA.initialState rfl
    (by simp +decide [SA.check_policy_enforcement, SA.dailyCapLoop, lookupD,
      c10req, c10cfg, SA.initialState])

end AiWeb3
